import Mathlib

/-!
Verification of the book-search service of `coverly-api`
(`src/books/books.service.ts`) against its natural-language specification.

The service is embedded shallowly: each private method of `BooksService`
becomes a Lean function with the same name; JavaScript `undefined`/absent
fields become `Option`, thrown exceptions become explicit error values, the
in-memory `Map` cache becomes an association list with `Map.get`/`Map.set`
semantics, and `Date.now()` becomes an explicit `now` parameter (time is
frozen within a single call; distinct calls carry distinct clocks).
-/

namespace Coverly

deriving instance DecidableEq for Except

/-- Model of JavaScript string truthiness-insensitive ASCII lowering used by
`value.trim().toLowerCase()` in `normalizeBoolean` (only ASCII letters are
relevant to the recognised boolean words). -/
def toLowerChar (c : Char) : Char :=
  if 65 ≤ c.toNat ∧ c.toNat ≤ 90 then Char.ofNat (c.toNat + 32) else c

/-- ASCII model of `String.prototype.toLowerCase`. -/
def strToLower (s : String) : String := ⟨s.data.map toLowerChar⟩

/-- Whitespace recognised by `String.prototype.trim` (ASCII fragment). -/
def isJsSpace (c : Char) : Bool :=
  c = ' ' || c = '\t' || c = '\n' || c = '\r' || c = '\x0c' || c = '\x0b'

/-- Model of `String.prototype.trim`: strip leading and trailing whitespace. -/
def strTrim (s : String) : String :=
  ⟨((s.data.dropWhile isJsSpace).reverse.dropWhile isJsSpace).reverse⟩

/-- Model of `String.prototype.includes` on character lists. -/
def listHasSub (pat : List Char) : List Char → Bool
  | [] => pat.isEmpty
  | c :: rest => pat.isPrefixOf (c :: rest) || listHasSub pat rest

/-- Model of `haystack.includes(needle)`. -/
def strIncludes (haystack needle : String) : Bool :=
  listHasSub needle.data haystack.data

/-! ## Upstream (Google Books) raw schema — `GoogleBooks*` interfaces -/

/-- `GoogleBooksImageLinks` interface: both links optional. -/
structure GoogleBooksImageLinks where
  smallThumbnail : Option String
  thumbnail : Option String
deriving DecidableEq

/-- `GoogleBooksVolumeInfo` interface: every field optional. -/
structure GoogleBooksVolumeInfo where
  title : Option String
  authors : Option (List String)
  publisher : Option String
  publishedDate : Option String
  pageCount : Option Int
  description : Option String
  imageLinks : Option GoogleBooksImageLinks
deriving DecidableEq

/-- `GoogleBooksVolume` interface. `volumeInfo` is typed as required in the
source but the mapper defends against its absence (`item.volumeInfo ?? {}`),
so it is embedded as optional. -/
structure GoogleBooksVolume where
  id : String
  volumeInfo : Option GoogleBooksVolumeInfo
deriving DecidableEq

/-- `GoogleBooksResponse` interface: raw upstream payload. -/
structure GoogleBooksResponse where
  totalItems : Option Int
  items : Option (List GoogleBooksVolume)
deriving DecidableEq

/-! ## Service output schema — `BookDto`, `BookSearchResponseDto` -/

/-- `BookDto`: one normalized book record. -/
structure BookDto where
  id : String
  title : String
  authors : List String
  publisher : String
  publishedDate : String
  pageCount : Int
  description : Option String
  thumbnail : Option String
deriving DecidableEq

/-- `BookSearchResponseDto`: the stable output schema. -/
structure BookSearchResponseDto where
  totalItems : Int
  items : List BookDto
deriving DecidableEq

/-! ## Errors -/

/-- Observable shape of an `AxiosError`: `error.response?.status` and
`error.code`. -/
structure AxiosErrorInfo where
  status : Option Nat
  code : Option String
deriving DecidableEq

/-- A failure thrown by the upstream HTTP call: either an `AxiosError`
(`isAxiosError(error)` true) or any other thrown value. -/
inductive UpstreamFailure where
  | axios (info : AxiosErrorInfo)
  | other
deriving DecidableEq

/-- Service-level error taxonomy. Each constructor corresponds to exactly one
`throw` site of `handleError`:
`badRequest s` ↦ `BadRequestException` with the upstream status `s`;
`overloaded` ↦ `InternalServerErrorException` for status 429;
`upstreamUnavailable` ↦ for status ≥ 500; `timeout` ↦ for `ECONNABORTED`;
`networkUnreachable` ↦ for `ERR_NETWORK`; `tlsValidationFailed` ↦ for the
certificate-validation codes; `unknown` ↦ the final generic
`InternalServerErrorException`. The source defines no Unauthorized-kind
throw site. -/
inductive ErrorKind where
  | badRequest (status : Nat)
  | overloaded
  | upstreamUnavailable
  | timeout
  | networkUnreachable
  | tlsValidationFailed
  | unknown
deriving DecidableEq

/-- `isCertValidationError` (books.service.ts lines 306-317). An absent or
empty code is falsy (`if (!code) return false`). -/
def isCertValidationError : Option String → Bool
  | none => false
  | some c =>
      if c = "" then false
      else
        ["SELF_SIGNED_CERT_IN_CHAIN", "DEPTH_ZERO_SELF_SIGNED_CERT",
         "UNABLE_TO_VERIFY_LEAF_SIGNATURE", "CERT_HAS_EXPIRED"].contains c

/-- Code-based branches of `handleError` (lines 186-196 and the final
fall-through, line 203), reached only after every status-based branch has
declined. -/
def classifyCode (code : Option String) : ErrorKind :=
  if code = some "ECONNABORTED" then ErrorKind.timeout
  else if code = some "ERR_NETWORK" then ErrorKind.networkUnreachable
  else if isCertValidationError code then ErrorKind.tlsValidationFailed
  else ErrorKind.unknown

/-- `handleError` (lines 167-204), as the function from the caught failure to
the thrown service-level error. JavaScript truthiness of
`status && status >= 400 && ...` is preserved: an absent response skips every
status branch, and a (hypothetical) status 0 is falsy. Non-Axios failures
reach only the final generic throw. -/
def handleError : UpstreamFailure → ErrorKind
  | UpstreamFailure.axios e =>
      match e.status with
      | some s =>
          if s ≠ 0 ∧ 400 ≤ s ∧ s < 500 ∧ s ≠ 429 then ErrorKind.badRequest s
          else if s = 429 then ErrorKind.overloaded
          else if s ≠ 0 ∧ 500 ≤ s then ErrorKind.upstreamUnavailable
          else classifyCode e.code
      | none => classifyCode e.code
  | UpstreamFailure.other => ErrorKind.unknown

/-- `shouldRetry` (lines 130-142). -/
def shouldRetry : UpstreamFailure → Bool
  | UpstreamFailure.other => false
  | UpstreamFailure.axios e =>
      e.status == some 429 || e.status == some 503 ||
      e.code == some "ECONNABORTED" || e.code == some "ERR_NETWORK"

/-! ## Response mapping — `mapResponse` -/

/-- The empty object `{}` substituted by `item.volumeInfo ?? {}`. -/
def emptyVolumeInfo : GoogleBooksVolumeInfo :=
  ⟨none, none, none, none, none, none, none⟩

/-- Per-item body of the `volumes.map` callback in `mapResponse`
(lines 147-159). `??` becomes `Option.getD`, optional chaining
`info.imageLinks?.thumbnail ?? info.imageLinks?.smallThumbnail` becomes
`bind` composed with `orElse`. -/
def mapVolume (item : GoogleBooksVolume) : BookDto :=
  let info := item.volumeInfo.getD emptyVolumeInfo
  { id := item.id
    title := info.title.getD "Unknown Title"
    authors := info.authors.getD ["Unknown Author"]
    publisher := info.publisher.getD "Unknown Publisher"
    publishedDate := info.publishedDate.getD "Unknown"
    pageCount := info.pageCount.getD 0
    description := info.description
    thumbnail := (info.imageLinks.bind GoogleBooksImageLinks.thumbnail).orElse
      (fun _ => info.imageLinks.bind GoogleBooksImageLinks.smallThumbnail) }

/-- `mapResponse` (lines 144-165). -/
def mapResponse (data : GoogleBooksResponse) : BookSearchResponseDto :=
  let volumes := data.items.getD []
  let items := volumes.map mapVolume
  { totalItems := data.totalItems.getD (items.length : Int)
    items := items }

/-! ## Cache key — `buildCacheKey` -/

/-- Lower-case hexadecimal digit, as printed by `JSON.stringify` for
`\u00xx` control-character escapes. -/
def hexDigitChar (n : Nat) : Char :=
  if n < 10 then Char.ofNat (48 + n) else Char.ofNat (87 + n)

/-- `JSON.stringify` escaping of one string character: `"` and `\` get a
backslash escape, the named control characters use their short forms, the
remaining control characters use `\u00xx`, everything else is copied. -/
def jsonEscapeChar (c : Char) : List Char :=
  if c = '"' then ['\\', '"']
  else if c = '\\' then ['\\', '\\']
  else if c = '\x08' then ['\\', 'b']
  else if c = '\x0c' then ['\\', 'f']
  else if c = '\n' then ['\\', 'n']
  else if c = '\r' then ['\\', 'r']
  else if c = '\t' then ['\\', 't']
  else if c.toNat < 32 then
    ['\\', 'u', '0', '0', hexDigitChar (c.toNat / 16), hexDigitChar (c.toNat % 16)]
  else [c]

/-- `JSON.stringify` of a string value: quoted, characters escaped. -/
def jsonQuote (s : String) : List Char :=
  '"' :: (s.data.flatMap jsonEscapeChar ++ ['"'])

/-- `buildCacheKey` (lines 235-242):
`JSON.stringify({ query, orderBy, startIndex, maxResults })`, with the
object-literal key order fixed by the source. -/
def buildCacheKey (query orderBy : String) (startIndex maxResults : Int) : String :=
  ⟨"\x7b\"query\":".data ++ (jsonQuote query ++ (",\"orderBy\":".data ++
    (jsonQuote orderBy ++ (",\"startIndex\":".data ++ ((toString startIndex).data ++
    (",\"maxResults\":".data ++ ((toString maxResults).data ++ "\x7d".data)))))))⟩

/-- Numeric value of a lower-case hexadecimal digit (inverse of
`hexDigitChar`). -/
def hexVal (c : Char) : Nat :=
  if 48 ≤ c.toNat ∧ c.toNat ≤ 57 then c.toNat - 48
  else if 97 ≤ c.toNat ∧ c.toNat ≤ 102 then c.toNat - 87
  else 0

/-- Decoder for `JSON.stringify` string escaping: a left inverse of the
character escaper, used to prove the cache key injective in the query
string. -/
def jsonUnescape : List Char → List Char
  | [] => []
  | c :: rest =>
      if c = '\\' then
        match rest with
        | [] => []
        | d :: rest2 =>
            if d = '"' then '"' :: jsonUnescape rest2
            else if d = '\\' then '\\' :: jsonUnescape rest2
            else if d = 'b' then '\x08' :: jsonUnescape rest2
            else if d = 'f' then '\x0c' :: jsonUnescape rest2
            else if d = 'n' then '\n' :: jsonUnescape rest2
            else if d = 'r' then '\r' :: jsonUnescape rest2
            else if d = 't' then '\t' :: jsonUnescape rest2
            else if d = 'u' then
              match rest2 with
              | a :: b :: e :: f :: rest3 =>
                  Char.ofNat
                    (hexVal a * 4096 + hexVal b * 256 + hexVal e * 16 + hexVal f) ::
                    jsonUnescape rest3
              | _ => []
            else d :: jsonUnescape rest2
      else c :: jsonUnescape rest

/-! ## Result cache — the `Map<string, CachedResult>` field -/

/-- `CachedResult` interface. -/
structure CachedResult where
  timestamp : Int
  data : BookSearchResponseDto
deriving DecidableEq

/-- The in-memory cache, as an association list with `Map` get/set
semantics. -/
abbrev Cache := List (String × CachedResult)

/-- `this.cacheTtlMs = 60_000`. -/
def cacheTtlMs : Int := 60000

/-- `this.maxResultsCap = 40`. -/
def maxResultsCap : Int := 40

/-- `this.cache.get(key)`. -/
def cacheGet (cache : Cache) (key : String) : Option CachedResult :=
  (cache.find? (fun p => p.1 == key)).map (fun p => p.2)

/-- `this.cache.set(key, value)`: replace any entry for `key`, keep the
rest. -/
def cacheSet (cache : Cache) (key : String) (value : CachedResult) : Cache :=
  (key, value) :: cache.filter (fun p => p.1 != key)

/-- The guarded lookup of `searchBooks` lines 70-75:
`cached && Date.now() - cached.timestamp < this.cacheTtlMs`. -/
def cacheLookup (cache : Cache) (key : String) (now : Int) :
    Option BookSearchResponseDto :=
  match cacheGet cache key with
  | some cached => if now - cached.timestamp < cacheTtlMs then some cached.data else none
  | none => none

/-! ## Retry loop — `fetchWithRetries` -/

/-- Parameters of one upstream `GET` request (the `params` object of
line 109). -/
structure RequestParams where
  q : String
  orderBy : String
  startIndex : Int
  maxResults : Int
deriving DecidableEq

/-- The upstream client: attempt number (1-based) to outcome. A fixed
function of the attempt models the mocked upstream of the service's own
tests; the real client is nondeterministic, which the universally
quantified theorems cover. -/
def Upstream : Type := Nat → Except UpstreamFailure GoogleBooksResponse

/-- A failure escaping `fetchWithRetries`: the upstream failure rethrown
from the catch block, or the `InternalServerErrorException` after the loop
(line 127, dead code for `maxAttempts = 3`). -/
inductive FetchError where
  | upstream (f : UpstreamFailure)
  | exhausted
deriving DecidableEq

/-- Observable outcome of `fetchWithRetries`: result, number of upstream
invocations, and the backoff delays awaited (in ms, in order). -/
structure FetchOutcome where
  result : Except FetchError GoogleBooksResponse
  calls : Nat
  delays : List Nat
deriving DecidableEq

/-- The `while (attempt < maxAttempts)` loop of `fetchWithRetries`
(lines 104-125), with `fuel = maxAttempts - attempt` as the structural
measure. Each iteration increments `attempt`, invokes the upstream client,
and on failure either rethrows (`attempt >= maxAttempts || !shouldRetry`) or
waits `delayMs` and doubles it. -/
def fetchLoop (upstream : Upstream) (maxAttempts : Nat) :
    Nat → Nat → Nat → Nat → List Nat → FetchOutcome
  | 0, _, _, calls, delays =>
      { result := Except.error FetchError.exhausted, calls := calls, delays := delays }
  | fuel + 1, attempt, delayMs, calls, delays =>
      let attempt' := attempt + 1
      match upstream attempt' with
      | Except.ok r => { result := Except.ok r, calls := calls + 1, delays := delays }
      | Except.error e =>
          if maxAttempts ≤ attempt' ∨ shouldRetry e = false then
            { result := Except.error (FetchError.upstream e), calls := calls + 1,
              delays := delays }
          else
            fetchLoop upstream maxAttempts fuel attempt' (delayMs * 2) (calls + 1)
              (delays ++ [delayMs])

/-- `fetchWithRetries` (lines 94-128): `maxAttempts = 3`, `attempt = 0`,
`delayMs = 500`. -/
def fetchWithRetries (upstream : Upstream) : FetchOutcome :=
  fetchLoop upstream 3 3 0 500 0 []

/-! ## Search orchestrator — `searchBooks` -/

/-- Error classification applied by the `catch` of `searchBooks`:
`handleError` receives either the rethrown upstream failure or the non-Axios
`InternalServerErrorException` of line 127, which it classifies as the
generic failure. -/
def classifySearchError : FetchError → ErrorKind
  | FetchError.upstream f => handleError f
  | FetchError.exhausted => ErrorKind.unknown

/-- Mutable service state consulted by one `searchBooks` call: the cache
contents and the current clock (`Date.now()`). -/
structure SearchState where
  cache : Cache
  now : Int

/-- Observable outcome of one `searchBooks` call. `sentParams` lists the
query parameters of each upstream invocation (the loop sends identical
parameters on every attempt); `cacheKey` is the key the call computed. -/
structure SearchOutcome where
  result : Except ErrorKind BookSearchResponseDto
  cache : Cache
  upstreamCalls : Nat
  delays : List Nat
  sentParams : List RequestParams
  cacheKey : String

/-- `searchBooks` (lines 62-92). Caps `maxResults` with
`Math.min(maxResults, this.maxResultsCap)`, builds the cache key, returns a
fresh cached value unchanged, otherwise fetches with retries, maps, stores
and returns — or classifies the failure via `handleError`, leaving the cache
untouched. -/
def searchBooks (st : SearchState) (upstream : Upstream)
    (query orderBy : String) (startIndex maxResults : Int) : SearchOutcome :=
  let cappedMaxResults := min maxResults maxResultsCap
  let cacheKey := buildCacheKey query orderBy startIndex cappedMaxResults
  match cacheLookup st.cache cacheKey st.now with
  | some data =>
      { result := Except.ok data, cache := st.cache, upstreamCalls := 0,
        delays := [], sentParams := [], cacheKey := cacheKey }
  | none =>
      let fo := fetchWithRetries upstream
      let params : RequestParams :=
        { q := query, orderBy := orderBy, startIndex := startIndex,
          maxResults := cappedMaxResults }
      match fo.result with
      | Except.ok resp =>
          let result := mapResponse resp
          { result := Except.ok result,
            cache := cacheSet st.cache cacheKey { timestamp := st.now, data := result },
            upstreamCalls := fo.calls, delays := fo.delays,
            sentParams := List.replicate fo.calls params, cacheKey := cacheKey }
      | Except.error fe =>
          { result := Except.error (classifySearchError fe), cache := st.cache,
            upstreamCalls := fo.calls, delays := fo.delays,
            sentParams := List.replicate fo.calls params, cacheKey := cacheKey }

/-! ## TLS trust builder — `buildHttpsAgent` and helpers -/

/-- A value read from `ConfigService` for the reject-unauthorized flag:
JavaScript boolean, string, or `undefined`. -/
inductive ConfigValue where
  | bool (b : Bool)
  | str (s : String)
  | undef
deriving DecidableEq

/-- `normalizeBoolean` (lines 206-222). -/
def normalizeBoolean : ConfigValue → Option Bool
  | ConfigValue.bool b => some b
  | ConfigValue.str s =>
      let normalized := strToLower (strTrim s)
      if ["true", "1", "yes", "on"].contains normalized then some true
      else if ["false", "0", "no", "off"].contains normalized then some false
      else none
  | ConfigValue.undef => none

/-- A loaded CA bundle: literal PEM text, base64-decoded inline bytes, or raw
file bytes (the byte payloads are kept as the originating strings — their
decoding is irrelevant to the control flow). -/
inductive CaBundle where
  | pemText (s : String)
  | base64Bytes (s : String)
  | fileBytes (s : String)
deriving DecidableEq

/-- `parseCertificate` (lines 295-304). -/
def parseCertificate (cert : String) : CaBundle :=
  if strIncludes cert "-----BEGIN CERTIFICATE-----" &&
     strIncludes cert "-----END CERTIFICATE-----" then
    CaBundle.pemText cert
  else
    CaBundle.base64Bytes cert

/-- `loadCertificateBundle` (lines 277-293). The filesystem is the function
`readFile` (path resolution against `process.cwd()` is folded into it);
`readFile path = none` models `readFileSync` throwing, which the
`try`/`catch` converts into `undefined`. JavaScript truthiness of
`caFile && caFile.trim()` collapses to the trimmed string being non-empty. -/
def loadCertificateBundle (readFile : String → Option String)
    (caFile inlineCa : Option String) : Option CaBundle :=
  if strTrim (inlineCa.getD "") ≠ "" then
    some (parseCertificate (strTrim (inlineCa.getD "")))
  else if strTrim (caFile.getD "") ≠ "" then
    match readFile (strTrim (caFile.getD "")) with
    | some bytes => some (CaBundle.fileBytes bytes)
    | none => none
  else none

/-- The `AgentOptions` object assembled by `buildHttpsAgent`. -/
structure HttpsAgentOptions where
  rejectUnauthorized : Option Bool
  ca : Option CaBundle
deriving DecidableEq

/-- `buildHttpsAgent` (lines 244-275): returns an agent (`some options`) iff
a CA bundle was loaded or `rejectUnauthorized` resolved to `false`;
otherwise `undefined` (`none`, platform defaults). -/
def buildHttpsAgent (readFile : String → Option String)
    (rejectUnauthorizedConfig : ConfigValue)
    (caFile inlineCa : Option String) : Option HttpsAgentOptions :=
  let shouldRejectUnauthorized := normalizeBoolean rejectUnauthorizedConfig
  let caBundle := loadCertificateBundle readFile caFile inlineCa
  let agentOptions : HttpsAgentOptions :=
    { rejectUnauthorized := shouldRejectUnauthorized, ca := caBundle }
  if caBundle.isSome || agentOptions.rejectUnauthorized == some false then
    some agentOptions
  else none

/-! ## Concrete doubles used by witnesses and counterexamples, mirroring the
fixtures of the service's own test suite -/

/-- A sample upstream payload with full metadata. -/
def sampleResponse : GoogleBooksResponse :=
  { totalItems := some 1
    items := some [{ id := "1"
                     volumeInfo := some
                       { title := some "Clean Code"
                         authors := some ["Robert C. Martin"]
                         publisher := some "Prentice Hall"
                         publishedDate := some "2008"
                         pageCount := some 464
                         description := some "A Handbook of Agile Software Craftsmanship"
                         imageLinks := some { smallThumbnail := some "small.jpg"
                                              thumbnail := some "thumb.jpg" } } }] }

/-- A volume carrying no metadata fields at all. -/
def bareVolume : GoogleBooksVolume :=
  { id := "x", volumeInfo := some emptyVolumeInfo }

/-- A payload with one bare volume and no `totalItems`. -/
def bareResponse : GoogleBooksResponse :=
  { totalItems := none, items := some [bareVolume] }

/-- Upstream double that always succeeds. -/
def upstreamOk : Upstream := fun _ => Except.ok sampleResponse

/-- Upstream double that always fails with status 401. -/
def upstream401 : Upstream := fun _ =>
  Except.error (UpstreamFailure.axios { status := some 401, code := none })

/-- Upstream double that always fails with status 404. -/
def upstream404 : Upstream := fun _ =>
  Except.error (UpstreamFailure.axios { status := some 404, code := none })

/-- Upstream double throttled on the first two attempts. -/
def upstream429 : Upstream := fun n =>
  if n ≤ 2 then Except.error (UpstreamFailure.axios { status := some 429, code := none })
  else Except.ok sampleResponse

/-! ## Helper lemmas: retry loop -/

/-- The call counter of the retry loop only grows. -/
lemma fetchLoop_calls_grow (upstream : Upstream) (maxAttempts : Nat) :
    ∀ fuel attempt delayMs calls delays,
      calls ≤ (fetchLoop upstream maxAttempts fuel attempt delayMs calls delays).calls := by
  intro fuel
  induction fuel with
  | zero => intro attempt delayMs calls delays; simp [fetchLoop]
  | succ fuel ih =>
      intro attempt delayMs calls delays
      simp only [fetchLoop]
      cases upstream (attempt + 1) with
      | ok r => simp
      | error e =>
          simp only
          split
          · simp
          · exact le_trans (Nat.le_succ calls) (ih _ _ _ _)

/-- The retry loop makes at most `fuel` further upstream invocations. -/
lemma fetchLoop_calls_le (upstream : Upstream) (maxAttempts : Nat) :
    ∀ fuel attempt delayMs calls delays,
      (fetchLoop upstream maxAttempts fuel attempt delayMs calls delays).calls ≤ calls + fuel := by
  intro fuel
  induction fuel with
  | zero => intro attempt delayMs calls delays; simp [fetchLoop]
  | succ fuel ih =>
      intro attempt delayMs calls delays
      simp only [fetchLoop]
      cases upstream (attempt + 1) with
      | ok r => simp
      | error e =>
          simp only
          split
          · simp
          · exact le_trans (ih _ _ _ _) (by omega)

/-- `fetchWithRetries` invokes the upstream client at most 3 times. -/
lemma fetchWithRetries_calls_le (upstream : Upstream) :
    (fetchWithRetries upstream).calls ≤ 3 := by
  simpa using fetchLoop_calls_le upstream 3 3 0 500 0 []

/-- `fetchWithRetries` invokes the upstream client at least once. -/
lemma fetchWithRetries_calls_pos (upstream : Upstream) :
    1 ≤ (fetchWithRetries upstream).calls := by
  unfold fetchWithRetries
  simp only [fetchLoop]
  cases upstream 1 with
  | ok r => simp
  | error e =>
      simp only
      split
      · simp
      · exact le_trans (by omega) (fetchLoop_calls_grow upstream 3 2 1 1000 1 [500])

/-- An immediately successful upstream call: one invocation, no delays. -/
lemma fetchWithRetries_ok (upstream : Upstream) (resp : GoogleBooksResponse)
    (h : upstream 1 = Except.ok resp) :
    fetchWithRetries upstream =
      { result := Except.ok resp, calls := 1, delays := [] } := by
  simp [fetchWithRetries, fetchLoop, h]

/-- A non-retryable first failure is rethrown after a single invocation. -/
lemma fetchWithRetries_noRetry (upstream : Upstream) (e : UpstreamFailure)
    (h : upstream 1 = Except.error e) (hr : shouldRetry e = false) :
    fetchWithRetries upstream =
      { result := Except.error (FetchError.upstream e), calls := 1, delays := [] } := by
  simp [fetchWithRetries, fetchLoop, h, hr]

/-! ## Helper lemmas: cache -/

/-- Lookup after `Map.set` at the written key. -/
lemma cacheGet_set_self (cache : Cache) (key : String) (value : CachedResult) :
    cacheGet (cacheSet cache key value) key = some value := by
  simp [cacheGet, cacheSet, List.find?]

/-- Lookup after `Map.set` at a different key sees the previous cache. -/
lemma cacheGet_set_other (cache : Cache) (key key' : String) (value : CachedResult)
    (h : key' ≠ key) :
    cacheGet (cacheSet cache key value) key' = cacheGet cache key' := by
  simp only [cacheGet, cacheSet]
  rw [List.find?_cons_of_neg _ (by simpa using fun hkk => h hkk.symm)]
  congr 1
  induction cache with
  | nil => rfl
  | cons p rest ih =>
      rw [List.filter_cons]
      by_cases hp : p.1 = key
      · rw [if_neg (by simp [hp])]
        rw [List.find?_cons_of_neg _ (by simp [hp]; exact fun hkk => h hkk.symm)]
        exact ih
      · rw [if_pos (by simpa using hp)]
        by_cases hq : p.1 = key'
        · rw [List.find?_cons_of_pos _ (by simpa using hq),
            List.find?_cons_of_pos _ (by simpa using hq)]
        · rw [List.find?_cons_of_neg _ (by simpa using hq),
            List.find?_cons_of_neg _ (by simpa using hq)]
          exact ih

/-- A lookup that misses stays a miss at any later clock. -/
lemma cacheLookup_none_later (cache : Cache) (key : String) (t1 t2 : Int)
    (h : cacheLookup cache key t1 = none) (hle : t1 ≤ t2) :
    cacheLookup cache key t2 = none := by
  unfold cacheLookup at h ⊢
  rcases hc : cacheGet cache key with _ | cached
  · simp [hc]
  · simp only [hc] at h ⊢
    by_cases hf : t1 - cached.timestamp < cacheTtlMs
    · simp [hf] at h
    · rw [if_neg (by omega)]

/-- Lookup of a freshly stored entry within the TTL window. -/
lemma cacheLookup_set_fresh (cache : Cache) (key : String) (ts t : Int)
    (data : BookSearchResponseDto) (h : t - ts < cacheTtlMs) :
    cacheLookup (cacheSet cache key { timestamp := ts, data := data }) key t = some data := by
  simp [cacheLookup, cacheGet_set_self, h]

/-- Lookup of a stored entry at or past the TTL window misses. -/
lemma cacheLookup_set_stale (cache : Cache) (key : String) (ts t : Int)
    (data : BookSearchResponseDto) (h : cacheTtlMs ≤ t - ts) :
    cacheLookup (cacheSet cache key { timestamp := ts, data := data }) key t = none := by
  simp only [cacheLookup, cacheGet_set_self]
  rw [if_neg (by omega)]

/-! ## Helper lemmas: orchestrator unfoldings -/

/-- A fresh cache hit short-circuits `searchBooks`. -/
lemma searchBooks_hit (st : SearchState) (upstream : Upstream) (q ob : String)
    (si mr : Int) (data : BookSearchResponseDto)
    (h : cacheLookup st.cache (buildCacheKey q ob si (min mr maxResultsCap)) st.now = some data) :
    searchBooks st upstream q ob si mr =
      { result := Except.ok data, cache := st.cache, upstreamCalls := 0, delays := [],
        sentParams := [], cacheKey := buildCacheKey q ob si (min mr maxResultsCap) } := by
  unfold searchBooks
  simp only [h]

/-- On a cache miss with a successful (retried) fetch, `searchBooks` maps the
payload, stores it under the capped key at the current clock, and returns it. -/
lemma searchBooks_miss_ok (st : SearchState) (upstream : Upstream) (q ob : String)
    (si mr : Int) (resp : GoogleBooksResponse) (k : Nat) (ds : List Nat)
    (hmiss : cacheLookup st.cache (buildCacheKey q ob si (min mr maxResultsCap)) st.now = none)
    (hf : fetchWithRetries upstream = { result := Except.ok resp, calls := k, delays := ds }) :
    searchBooks st upstream q ob si mr =
      { result := Except.ok (mapResponse resp),
        cache := cacheSet st.cache (buildCacheKey q ob si (min mr maxResultsCap))
          { timestamp := st.now, data := mapResponse resp },
        upstreamCalls := k, delays := ds,
        sentParams := List.replicate k
          { q := q, orderBy := ob, startIndex := si, maxResults := min mr maxResultsCap },
        cacheKey := buildCacheKey q ob si (min mr maxResultsCap) } := by
  unfold searchBooks
  simp only [hmiss, hf]

/-- On a cache miss with a failed (retried) fetch, `searchBooks` surfaces the
classified error and leaves the cache untouched. -/
lemma searchBooks_miss_err (st : SearchState) (upstream : Upstream) (q ob : String)
    (si mr : Int) (fe : FetchError) (k : Nat) (ds : List Nat)
    (hmiss : cacheLookup st.cache (buildCacheKey q ob si (min mr maxResultsCap)) st.now = none)
    (hf : fetchWithRetries upstream =
      { result := Except.error fe, calls := k, delays := ds }) :
    searchBooks st upstream q ob si mr =
      { result := Except.error (classifySearchError fe), cache := st.cache,
        upstreamCalls := k, delays := ds,
        sentParams := List.replicate k
          { q := q, orderBy := ob, startIndex := si, maxResults := min mr maxResultsCap },
        cacheKey := buildCacheKey q ob si (min mr maxResultsCap) } := by
  unfold searchBooks
  simp only [hmiss, hf]

/-- The cache key computed by a call, in every control path. -/
lemma searchBooks_cacheKey (st : SearchState) (upstream : Upstream) (q ob : String)
    (si mr : Int) :
    (searchBooks st upstream q ob si mr).cacheKey =
      buildCacheKey q ob si (min mr maxResultsCap) := by
  unfold searchBooks
  rcases hl : cacheLookup st.cache (buildCacheKey q ob si (min mr maxResultsCap)) st.now with
    _ | data
  · simp only [hl]
    rcases hf : (fetchWithRetries upstream).result with resp | fe <;> simp only [hf]
  · simp only [hl]

/-- Every upstream invocation of a call carries the capped parameters. -/
lemma searchBooks_sentParams (st : SearchState) (upstream : Upstream) (q ob : String)
    (si mr : Int) (p : RequestParams)
    (hp : p ∈ (searchBooks st upstream q ob si mr).sentParams) :
    p = { q := q, orderBy := ob, startIndex := si, maxResults := min mr maxResultsCap } := by
  unfold searchBooks at hp
  rcases hl : cacheLookup st.cache (buildCacheKey q ob si (min mr maxResultsCap)) st.now with
    _ | data
  · simp only [hl] at hp
    rcases hf : (fetchWithRetries upstream).result with resp | fe <;> simp only [hf] at hp <;>
      exact List.eq_of_mem_replicate hp
  · simp only [hl] at hp
    exact absurd hp (by simp)

/-- The parameters sent upstream: one copy of the capped parameter set per
invocation. -/
lemma searchBooks_sentParams_eq (st : SearchState) (upstream : Upstream) (q ob : String)
    (si mr : Int) :
    (searchBooks st upstream q ob si mr).sentParams =
      List.replicate (searchBooks st upstream q ob si mr).upstreamCalls
        { q := q, orderBy := ob, startIndex := si, maxResults := min mr maxResultsCap } := by
  unfold searchBooks
  rcases hl : cacheLookup st.cache (buildCacheKey q ob si (min mr maxResultsCap)) st.now with
    _ | data
  · simp only [hl]
    rcases hf : (fetchWithRetries upstream).result with resp | fe <;> simp only [hf]
  · simp only [hl]
    rfl

/-- On a cache miss the number of upstream invocations is that of the retry
loop, hence at least one. -/
lemma searchBooks_miss_calls (st : SearchState) (upstream : Upstream) (q ob : String)
    (si mr : Int)
    (hmiss : cacheLookup st.cache (buildCacheKey q ob si (min mr maxResultsCap)) st.now = none) :
    (searchBooks st upstream q ob si mr).upstreamCalls = (fetchWithRetries upstream).calls := by
  unfold searchBooks
  simp only [hmiss]
  rcases hf : (fetchWithRetries upstream).result with resp | fe <;> simp only [hf]

/-! ## Helper lemmas: cache-key injectivity in the query string -/

/-- The hex-digit printer and reader cancel on digit values. -/
lemma hexVal_hexDigitChar : ∀ n < 16, hexVal (hexDigitChar n) = n := by decide

/-- Unescaping past a character that is not a backslash. -/
lemma jsonUnescape_default (c : Char) (h : c ≠ '\\') (rest : List Char) :
    jsonUnescape (c :: rest) = c :: jsonUnescape rest := by
  rw [jsonUnescape.eq_def]
  dsimp only
  rw [if_neg h]

/-- Unescaping a `\u`-escape sequence. -/
lemma jsonUnescape_u (a b e f : Char) (rest : List Char) :
    jsonUnescape ('\\' :: 'u' :: a :: b :: e :: f :: rest) =
      Char.ofNat (hexVal a * 4096 + hexVal b * 256 + hexVal e * 16 + hexVal f) ::
        jsonUnescape rest := by
  rw [jsonUnescape.eq_def]
  simp

/-- The decoder inverts the `JSON.stringify` character escaper. -/
lemma jsonUnescape_escape (c : Char) (rest : List Char) :
    jsonUnescape (jsonEscapeChar c ++ rest) = c :: jsonUnescape rest := by
  unfold jsonEscapeChar
  by_cases h1 : c = '"'
  · rw [if_pos h1, h1, jsonUnescape.eq_def]; simp
  rw [if_neg h1]
  by_cases h2 : c = '\\'
  · rw [if_pos h2, h2, jsonUnescape.eq_def]; simp
  rw [if_neg h2]
  by_cases h3 : c = '\x08'
  · rw [if_pos h3, h3, jsonUnescape.eq_def]; simp
  rw [if_neg h3]
  by_cases h4 : c = '\x0c'
  · rw [if_pos h4, h4, jsonUnescape.eq_def]; simp
  rw [if_neg h4]
  by_cases h5 : c = '\n'
  · rw [if_pos h5, h5, jsonUnescape.eq_def]; simp
  rw [if_neg h5]
  by_cases h6 : c = '\r'
  · rw [if_pos h6, h6, jsonUnescape.eq_def]; simp
  rw [if_neg h6]
  by_cases h7 : c = '\t'
  · rw [if_pos h7, h7, jsonUnescape.eq_def]; simp
  rw [if_neg h7]
  by_cases h8 : c.toNat < 32
  · rw [if_pos h8]
    show jsonUnescape ('\\' :: 'u' :: '0' :: '0' :: _ :: _ :: rest) = _
    rw [jsonUnescape_u]
    have hv0 : hexVal '0' = 0 := rfl
    have hdiv : c.toNat / 16 < 16 := by omega
    have hmod : c.toNat % 16 < 16 := Nat.mod_lt _ (by norm_num)
    rw [hv0, hexVal_hexDigitChar _ hdiv, hexVal_hexDigitChar _ hmod]
    have harith : 0 * 4096 + 0 * 256 + c.toNat / 16 * 16 + c.toNat % 16 = c.toNat := by
      omega
    rw [harith, Char.ofNat_toNat]
  · rw [if_neg h8]
    exact jsonUnescape_default c h2 rest

/-- The decoder recovers a fully escaped string. -/
lemma jsonUnescape_flatMap (l : List Char) :
    jsonUnescape (l.flatMap jsonEscapeChar) = l := by
  induction l with
  | nil => rfl
  | cons c l ih => rw [List.flatMap_cons, jsonUnescape_escape, ih]

/-- `JSON.stringify` string serialization is injective. -/
lemma jsonQuote_inj (s1 s2 : String) (h : jsonQuote s1 = jsonQuote s2) : s1 = s2 := by
  unfold jsonQuote at h
  injection h with _ h2
  have h3 := List.append_cancel_right h2
  have h4 := congrArg jsonUnescape h3
  rw [jsonUnescape_flatMap, jsonUnescape_flatMap] at h4
  cases s1; cases s2
  exact congrArg String.mk h4

/-- The cache key determines the raw query string: no trimming, no case
folding, no whitespace normalization. -/
lemma buildCacheKey_query_inj (q1 q2 ob : String) (si mr : Int)
    (h : buildCacheKey q1 ob si mr = buildCacheKey q2 ob si mr) : q1 = q2 := by
  unfold buildCacheKey at h
  injection h with hd
  have h1 := List.append_cancel_left hd
  have h2 := List.append_cancel_right h1
  exact jsonQuote_inj _ _ h2

/-! ## Helper lemmas: error classification and multi-attempt runs -/

/-- A 4xx status other than 429 classifies as the caller-facing bad-request
error, whatever the error code. -/
lemma handleError_4xx (s : Nat) (c : Option String) (h4 : 400 ≤ s) (h5 : s < 500)
    (h9 : s ≠ 429) :
    handleError (UpstreamFailure.axios { status := some s, code := c }) =
      ErrorKind.badRequest s := by
  simp only [handleError]
  rw [if_pos ⟨by omega, h4, h5, h9⟩]

/-- Status 429 is always retryable. -/
lemma shouldRetry_429 (c : Option String) :
    shouldRetry (UpstreamFailure.axios { status := some 429, code := c }) = true := by
  simp [shouldRetry]

/-- An Axios failure outside the retryable statuses and codes is not
retried. -/
lemma shouldRetry_false_of (info : AxiosErrorInfo) (h1 : info.status ≠ some 429)
    (h2 : info.status ≠ some 503) (h3 : info.code ≠ some "ECONNABORTED")
    (h4 : info.code ≠ some "ERR_NETWORK") :
    shouldRetry (UpstreamFailure.axios info) = false := by
  simp only [shouldRetry, Bool.or_eq_false_iff, beq_eq_false_iff_ne, ne_eq]
  exact ⟨⟨⟨h1, h2⟩, h3⟩, h4⟩

/-- Retryable failure, then a non-retryable failure: two invocations, one
backoff delay, second failure rethrown. -/
lemma fetchWithRetries_retry_noRetry (upstream : Upstream) (e1 e2 : UpstreamFailure)
    (h1 : upstream 1 = Except.error e1) (hr1 : shouldRetry e1 = true)
    (h2 : upstream 2 = Except.error e2) (hr2 : shouldRetry e2 = false) :
    fetchWithRetries upstream =
      { result := Except.error (FetchError.upstream e2), calls := 2, delays := [500] } := by
  simp [fetchWithRetries, fetchLoop, h1, hr1, h2, hr2]

/-- Two retryable failures then success: three invocations, doubling
backoff. -/
lemma fetchWithRetries_retry_retry_ok (upstream : Upstream) (e1 e2 : UpstreamFailure)
    (resp : GoogleBooksResponse)
    (h1 : upstream 1 = Except.error e1) (hr1 : shouldRetry e1 = true)
    (h2 : upstream 2 = Except.error e2) (hr2 : shouldRetry e2 = true)
    (h3 : upstream 3 = Except.ok resp) :
    fetchWithRetries upstream =
      { result := Except.ok resp, calls := 3, delays := [500, 1000] } := by
  simp [fetchWithRetries, fetchLoop, h1, hr1, h2, hr2, h3]

/-- Two retryable failures then a third failure: the third failure is
rethrown whatever its classification. -/
lemma fetchWithRetries_retry_retry_err (upstream : Upstream) (e1 e2 e3 : UpstreamFailure)
    (h1 : upstream 1 = Except.error e1) (hr1 : shouldRetry e1 = true)
    (h2 : upstream 2 = Except.error e2) (hr2 : shouldRetry e2 = true)
    (h3 : upstream 3 = Except.error e3) :
    fetchWithRetries upstream =
      { result := Except.error (FetchError.upstream e3), calls := 3,
        delays := [500, 1000] } := by
  simp [fetchWithRetries, fetchLoop, h1, hr1, h2, hr2, h3]

/-- When every attempt fails with status 401, the rethrown failure is one of
those 401 failures. -/
lemma fetchWithRetries_all_401 (upstream : Upstream) (code : Nat → Option String)
    (h : ∀ n, upstream n = Except.error
      (UpstreamFailure.axios { status := some 401, code := code n })) :
    ∃ k ds n, fetchWithRetries upstream =
      { result := Except.error (FetchError.upstream
          (UpstreamFailure.axios { status := some 401, code := code n })),
        calls := k, delays := ds } := by
  rcases hb1 : shouldRetry (UpstreamFailure.axios { status := some 401, code := code 1 }) with _ | _
  · exact ⟨1, [], 1, fetchWithRetries_noRetry upstream _ (h 1) hb1⟩
  · rcases hb2 : shouldRetry (UpstreamFailure.axios { status := some 401, code := code 2 }) with _ | _
    · exact ⟨2, [500], 2, fetchWithRetries_retry_noRetry upstream _ _ (h 1) hb1 (h 2) hb2⟩
    · exact ⟨3, [500, 1000], 3,
        fetchWithRetries_retry_retry_err upstream _ _ _ (h 1) hb1 (h 2) hb2 (h 3)⟩

/-- A failed call leaves the cache unchanged and implies the lookup missed. -/
lemma searchBooks_err_inv (st : SearchState) (upstream : Upstream) (q ob : String)
    (si mr : Int) (e : ErrorKind)
    (h : (searchBooks st upstream q ob si mr).result = Except.error e) :
    cacheLookup st.cache (buildCacheKey q ob si (min mr maxResultsCap)) st.now = none ∧
      (searchBooks st upstream q ob si mr).cache = st.cache := by
  rcases hl : cacheLookup st.cache (buildCacheKey q ob si (min mr maxResultsCap)) st.now with
    _ | data
  · refine ⟨rfl, ?_⟩
    rcases hfo : fetchWithRetries upstream with ⟨r, k, ds⟩
    cases r with
    | ok resp => rw [searchBooks_miss_ok st upstream q ob si mr resp k ds hl hfo] at h; simp at h
    | error fe => rw [searchBooks_miss_err st upstream q ob si mr fe k ds hl hfo]
  · rw [searchBooks_hit st upstream q ob si mr data hl] at h
    simp at h

/-! ## Claim theorems -/

/-- C1 (counterexample): a search whose upstream call fails with HTTP status
401 surfaces the BadRequest-kind error — directly refuting the claim that the
raised error is Unauthorized-kind and not BadRequest. The service has no
Unauthorized-kind throw site at all: 401 falls into the `[400,500)` excluding
429 branch of `handleError`. -/
theorem searchBooks_status401_unauthorized_refuted :
    (searchBooks { cache := [], now := 0 } upstream401 "auth" "relevance" 0 10).result =
      Except.error (ErrorKind.badRequest 401) := by decide

/-- C1 (amended): for every search whose upstream call fails with HTTP status
401 on every attempt, `searchBooks` raises the BadRequest-kind error carrying
status 401 (401 is classified together with the other 4xx statuses other than
429; the code defines no Unauthorized kind). -/
theorem searchBooks_status401_is_badRequest :
    ∀ (st : SearchState) (upstream : Upstream) (q ob : String) (si mr : Int)
      (code : Nat → Option String),
      cacheLookup st.cache (buildCacheKey q ob si (min mr maxResultsCap)) st.now = none →
      (∀ n, upstream n = Except.error
        (UpstreamFailure.axios { status := some 401, code := code n })) →
      (searchBooks st upstream q ob si mr).result =
        Except.error (ErrorKind.badRequest 401) := by
  intro st upstream q ob si mr code hmiss h
  obtain ⟨k, ds, n, hf⟩ := fetchWithRetries_all_401 upstream code h
  rw [searchBooks_miss_err st upstream q ob si mr _ k ds hmiss hf]
  simp only [classifySearchError]
  rw [handleError_4xx 401 (code n) (by norm_num) (by norm_num) (by norm_num)]

/-- C1 (witness): the amended theorem applied to a concrete 401-failing
upstream. -/
theorem searchBooks_status401_is_badRequest_witness :
    (searchBooks { cache := [], now := 7 } upstream401 "q" "newest" 2 5).result =
      Except.error (ErrorKind.badRequest 401) :=
  searchBooks_status401_is_badRequest { cache := [], now := 7 } upstream401 "q" "newest"
    2 5 (fun _ => none) rfl (fun _ => rfl)

/-- C3: a failure is retried exactly when its status is 429 or 503, or its
code is the connection-aborted/timeout code `ECONNABORTED` or the
network-unreachable code `ERR_NETWORK`; a non-retryable first failure is
rethrown after a single upstream invocation; in particular a status-404
failure (whose code is not one of the retryable codes) makes `searchBooks`
raise BadRequest-kind with exactly one upstream invocation. -/
theorem retry_predicate_404_single_attempt :
    (∀ e : UpstreamFailure, shouldRetry e = true ↔
      ∃ info, e = UpstreamFailure.axios info ∧
        (info.status = some 429 ∨ info.status = some 503 ∨
         info.code = some "ECONNABORTED" ∨ info.code = some "ERR_NETWORK")) ∧
    (∀ (upstream : Upstream) (e : UpstreamFailure),
      upstream 1 = Except.error e → shouldRetry e = false →
      fetchWithRetries upstream =
        { result := Except.error (FetchError.upstream e), calls := 1, delays := [] }) ∧
    (∀ (st : SearchState) (upstream : Upstream) (q ob : String) (si mr : Int)
      (c : Option String),
      cacheLookup st.cache (buildCacheKey q ob si (min mr maxResultsCap)) st.now = none →
      upstream 1 = Except.error
        (UpstreamFailure.axios { status := some 404, code := c }) →
      c ≠ some "ECONNABORTED" → c ≠ some "ERR_NETWORK" →
      (searchBooks st upstream q ob si mr).result =
          Except.error (ErrorKind.badRequest 404) ∧
        (searchBooks st upstream q ob si mr).upstreamCalls = 1) := by
  refine ⟨?_, fetchWithRetries_noRetry, ?_⟩
  · intro e
    cases e with
    | axios info =>
        simp only [shouldRetry, Bool.or_eq_true, beq_iff_eq]
        constructor
        · intro hdis
          exact ⟨info, rfl, by tauto⟩
        · rintro ⟨info', heq, hdis⟩
          injection heq with h'
          subst h'
          tauto
    | other => simp [shouldRetry]
  · intro st upstream q ob si mr c hmiss h1 hc1 hc2
    have hr : shouldRetry (UpstreamFailure.axios { status := some 404, code := c }) = false :=
      shouldRetry_false_of _ (by simp) (by simp) hc1 hc2
    have hf := fetchWithRetries_noRetry upstream _ h1 hr
    rw [searchBooks_miss_err st upstream q ob si mr _ 1 [] hmiss hf]
    refine ⟨?_, rfl⟩
    simp only [classifySearchError]
    rw [handleError_4xx 404 c (by norm_num) (by norm_num) (by norm_num)]

/-- C3 (witness): the 404 branch applied to a concrete upstream double. -/
theorem retry_predicate_404_single_attempt_witness :
    (searchBooks { cache := [], now := 0 } upstream404 "missing book" "relevance" 0 10).result
        = Except.error (ErrorKind.badRequest 404) ∧
      (searchBooks { cache := [], now := 0 } upstream404 "missing book" "relevance" 0 10).upstreamCalls
        = 1 :=
  retry_predicate_404_single_attempt.2.2 { cache := [], now := 0 } upstream404
    "missing book" "relevance" 0 10 none rfl rfl (by decide) (by decide)

/-- C4: the retry loop makes at most 3 upstream invocations; after two
retryable failures a third failure is rethrown regardless of its
classification, with delays 500 ms then 1000 ms; and when attempts 1 and 2
fail with status 429 and attempt 3 succeeds, `searchBooks` returns the mapped
successful result with exactly 3 invocations and doubling backoff starting at
500 ms. -/
theorem retry_three_attempts_backoff :
    (∀ upstream : Upstream, (fetchWithRetries upstream).calls ≤ 3) ∧
    (∀ (upstream : Upstream) (e1 e2 e3 : UpstreamFailure),
      upstream 1 = Except.error e1 → shouldRetry e1 = true →
      upstream 2 = Except.error e2 → shouldRetry e2 = true →
      upstream 3 = Except.error e3 →
      fetchWithRetries upstream =
        { result := Except.error (FetchError.upstream e3), calls := 3,
          delays := [500, 1000] }) ∧
    (∀ (st : SearchState) (upstream : Upstream) (q ob : String) (si mr : Int)
      (c1 c2 : Option String) (resp : GoogleBooksResponse),
      cacheLookup st.cache (buildCacheKey q ob si (min mr maxResultsCap)) st.now = none →
      upstream 1 = Except.error
        (UpstreamFailure.axios { status := some 429, code := c1 }) →
      upstream 2 = Except.error
        (UpstreamFailure.axios { status := some 429, code := c2 }) →
      upstream 3 = Except.ok resp →
      (searchBooks st upstream q ob si mr).result = Except.ok (mapResponse resp) ∧
        (searchBooks st upstream q ob si mr).upstreamCalls = 3 ∧
        (searchBooks st upstream q ob si mr).delays = [500, 1000]) := by
  refine ⟨fetchWithRetries_calls_le, fetchWithRetries_retry_retry_err, ?_⟩
  intro st upstream q ob si mr c1 c2 resp hmiss h1 h2 h3
  have hf := fetchWithRetries_retry_retry_ok upstream _ _ resp h1 (shouldRetry_429 c1)
    h2 (shouldRetry_429 c2) h3
  rw [searchBooks_miss_ok st upstream q ob si mr resp 3 [500, 1000] hmiss hf]
  exact ⟨rfl, rfl, rfl⟩

/-- C4 (witness): the 429-429-success branch applied to a concrete throttled
upstream double. -/
theorem retry_three_attempts_backoff_witness :
    (searchBooks { cache := [], now := 0 } upstream429 "refactoring" "relevance" 0 10).result
        = Except.ok (mapResponse sampleResponse) ∧
      (searchBooks { cache := [], now := 0 } upstream429 "refactoring" "relevance" 0 10).upstreamCalls
        = 3 ∧
      (searchBooks { cache := [], now := 0 } upstream429 "refactoring" "relevance" 0 10).delays
        = [500, 1000] :=
  retry_three_attempts_backoff.2.2 { cache := [], now := 0 } upstream429 "refactoring"
    "relevance" 0 10 none none sampleResponse rfl rfl rfl rfl

/-- C2 (counterexample): `maxResults = 10` does not cap to 40 —
`Math.min(10, 40) = 10` — so calls with `maxResults` 10 and 60 compute
different cache keys and do not share a cache entry: after a successful call
with 10, an otherwise identical call with 60 still invokes the upstream
client. -/
theorem maxResults_cap_10_60_refuted :
    min (10 : Int) maxResultsCap ≠ 40 ∧
    (searchBooks { cache := [], now := 0 } upstreamOk "a" "relevance" 0 10).cacheKey ≠
      (searchBooks { cache := [], now := 0 } upstreamOk "a" "relevance" 0 60).cacheKey ∧
    (searchBooks
        { cache := (searchBooks { cache := [], now := 0 } upstreamOk "a" "relevance" 0 10).cache,
          now := 0 }
        upstreamOk "a" "relevance" 0 60).upstreamCalls = 1 :=
  ⟨by decide, by decide, by decide⟩

/-- C2 (amended): `maxResults` is capped to 40 with `Math.min` before the
cache key is built, so two calls identical except for `maxResults` values
that are both at least 40 (for example 50 and 60) compute the same cache key
and share the same cache entry: after the first stores its result, the
second returns it from the cache with no upstream invocation. -/
theorem maxResults_cap_shared_cache_entry :
    ∀ (st : SearchState) (up up2 : Upstream) (q ob : String) (si m1 m2 t2 : Int)
      (resp : GoogleBooksResponse),
      40 ≤ m1 → 40 ≤ m2 →
      (searchBooks st up q ob si m1).cacheKey = (searchBooks st up2 q ob si m2).cacheKey ∧
      (cacheLookup st.cache (buildCacheKey q ob si 40) st.now = none →
        up 1 = Except.ok resp →
        t2 - st.now < cacheTtlMs →
        (searchBooks { cache := (searchBooks st up q ob si m1).cache, now := t2 }
              up2 q ob si m2).result = Except.ok (mapResponse resp) ∧
          (searchBooks { cache := (searchBooks st up q ob si m1).cache, now := t2 }
              up2 q ob si m2).upstreamCalls = 0) := by
  intro st up up2 q ob si m1 m2 t2 resp h1 h2
  have e1 : min m1 maxResultsCap = 40 := by
    have h40 : maxResultsCap = (40 : Int) := rfl
    rw [h40, min_eq_right h1]
  have e2 : min m2 maxResultsCap = 40 := by
    have h40 : maxResultsCap = (40 : Int) := rfl
    rw [h40, min_eq_right h2]
  constructor
  · rw [searchBooks_cacheKey, searchBooks_cacheKey, e1, e2]
  · intro hmiss hok hfresh
    have hm := searchBooks_miss_ok st up q ob si m1 resp 1 [] (by rw [e1]; exact hmiss)
      (fetchWithRetries_ok up resp hok)
    rw [hm, e1]
    dsimp only
    have hhit := cacheLookup_set_fresh st.cache (buildCacheKey q ob si 40) st.now t2
      (mapResponse resp) hfresh
    rw [searchBooks_hit
      { cache := cacheSet st.cache (buildCacheKey q ob si 40)
          { timestamp := st.now, data := mapResponse resp }, now := t2 }
      up2 q ob si m2 (mapResponse resp) (by rw [e2]; exact hhit)]
    exact ⟨rfl, rfl⟩

/-- C2 (witness): the amended theorem applied with `maxResults` 50 and 60. -/
theorem maxResults_cap_shared_cache_entry_witness :
    (searchBooks { cache := [], now := 0 } upstreamOk "a" "relevance" 0 50).cacheKey =
        (searchBooks { cache := [], now := 0 } upstreamOk "a" "relevance" 0 60).cacheKey ∧
      (searchBooks
          { cache := (searchBooks { cache := [], now := 0 } upstreamOk "a" "relevance" 0 50).cache,
            now := 1000 }
          upstreamOk "a" "relevance" 0 60).result = Except.ok (mapResponse sampleResponse) ∧
      (searchBooks
          { cache := (searchBooks { cache := [], now := 0 } upstreamOk "a" "relevance" 0 50).cache,
            now := 1000 }
          upstreamOk "a" "relevance" 0 60).upstreamCalls = 0 := by
  have h := maxResults_cap_shared_cache_entry { cache := [], now := 0 } upstreamOk upstreamOk
    "a" "relevance" 0 50 60 1000 sampleResponse (by decide) (by decide)
  exact ⟨h.1, h.2 rfl rfl (by decide)⟩

/-- C5: after a (first-attempt-successful) fetch stores its result, an
identical call whose clock is within 60,000 ms of the store returns the
cached value unchanged with no further upstream invocation — one invocation
across the two calls — while a call at or beyond 60,000 ms invokes the
upstream client again. -/
theorem cache_ttl_window :
    ∀ (st : SearchState) (up up2 : Upstream) (q ob : String) (si mr t2 : Int)
      (resp : GoogleBooksResponse),
      cacheLookup st.cache (buildCacheKey q ob si (min mr maxResultsCap)) st.now = none →
      up 1 = Except.ok resp →
      (t2 - st.now < cacheTtlMs →
        (searchBooks { cache := (searchBooks st up q ob si mr).cache, now := t2 }
              up2 q ob si mr).result = (searchBooks st up q ob si mr).result ∧
          (searchBooks st up q ob si mr).upstreamCalls +
            (searchBooks { cache := (searchBooks st up q ob si mr).cache, now := t2 }
              up2 q ob si mr).upstreamCalls = 1) ∧
      (cacheTtlMs ≤ t2 - st.now →
        1 ≤ (searchBooks { cache := (searchBooks st up q ob si mr).cache, now := t2 }
              up2 q ob si mr).upstreamCalls) := by
  intro st up up2 q ob si mr t2 resp hmiss hok
  have hm := searchBooks_miss_ok st up q ob si mr resp 1 [] hmiss
    (fetchWithRetries_ok up resp hok)
  constructor
  · intro hfresh
    rw [hm]
    dsimp only
    have hhit := cacheLookup_set_fresh st.cache
      (buildCacheKey q ob si (min mr maxResultsCap)) st.now t2 (mapResponse resp) hfresh
    rw [searchBooks_hit
      { cache := cacheSet st.cache (buildCacheKey q ob si (min mr maxResultsCap))
          { timestamp := st.now, data := mapResponse resp }, now := t2 }
      up2 q ob si mr (mapResponse resp) hhit]
    exact ⟨rfl, rfl⟩
  · intro hstale
    rw [hm]
    dsimp only
    have hnone := cacheLookup_set_stale st.cache
      (buildCacheKey q ob si (min mr maxResultsCap)) st.now t2 (mapResponse resp) hstale
    rw [searchBooks_miss_calls
      { cache := cacheSet st.cache (buildCacheKey q ob si (min mr maxResultsCap))
          { timestamp := st.now, data := mapResponse resp }, now := t2 }
      up2 q ob si mr hnone]
    exact fetchWithRetries_calls_pos up2

/-- C5 (witness): the theorem applied to a concrete upstream double, reading
the cached value back 1000 ms after the store. -/
theorem cache_ttl_window_witness :
    (searchBooks
          { cache := (searchBooks { cache := [], now := 0 } upstreamOk "ddd" "relevance" 0 10).cache,
            now := 1000 }
          upstreamOk "ddd" "relevance" 0 10).result =
        (searchBooks { cache := [], now := 0 } upstreamOk "ddd" "relevance" 0 10).result ∧
      (searchBooks { cache := [], now := 0 } upstreamOk "ddd" "relevance" 0 10).upstreamCalls +
        (searchBooks
          { cache := (searchBooks { cache := [], now := 0 } upstreamOk "ddd" "relevance" 0 10).cache,
            now := 1000 }
          upstreamOk "ddd" "relevance" 0 10).upstreamCalls = 1 :=
  (cache_ttl_window { cache := [], now := 0 } upstreamOk upstreamOk "ddd" "relevance" 0 10
    1000 sampleResponse rfl rfl).1 (by decide)

/-- C10: `searchBooks` applies only an upper bound to `maxResults`: every
value at most 40 — including 0 and negative values — passes through
`Math.min` unchanged and is used as-is both in the cache key and in the
parameters of every upstream request. -/
theorem maxResults_no_lower_bound :
    ∀ (st : SearchState) (up : Upstream) (q ob : String) (si mr : Int),
      mr ≤ 40 →
      min mr maxResultsCap = mr ∧
      (searchBooks st up q ob si mr).cacheKey = buildCacheKey q ob si mr ∧
      (searchBooks st up q ob si mr).sentParams =
        List.replicate (searchBooks st up q ob si mr).upstreamCalls
          { q := q, orderBy := ob, startIndex := si, maxResults := mr } := by
  intro st up q ob si mr h
  have e : min mr maxResultsCap = mr := by
    have h40 : maxResultsCap = (40 : Int) := rfl
    rw [h40, min_eq_left h]
  refine ⟨e, ?_, ?_⟩
  · rw [searchBooks_cacheKey, e]
  · rw [searchBooks_sentParams_eq, e]

/-- C10 (witness): the theorem applied at the negative value -3. -/
theorem maxResults_no_lower_bound_witness :
    min (-3 : Int) maxResultsCap = -3 ∧
      (searchBooks { cache := [], now := 0 } upstreamOk "q" "relevance" 0 (-3)).cacheKey =
        buildCacheKey "q" "relevance" 0 (-3) ∧
      (searchBooks { cache := [], now := 0 } upstreamOk "q" "relevance" 0 (-3)).sentParams =
        List.replicate
          (searchBooks { cache := [], now := 0 } upstreamOk "q" "relevance" 0 (-3)).upstreamCalls
          { q := "q", orderBy := "relevance", startIndex := 0, maxResults := -3 } :=
  maxResults_no_lower_bound { cache := [], now := 0 } upstreamOk "q" "relevance" 0 (-3)
    (by decide)

/-- C6: the Response Mapper maps the items in order and, per item, defaults
exactly the absent fields: title to "Unknown Title", authors to
["Unknown Author"], publisher to "Unknown Publisher", publishedDate to
"Unknown", pageCount to 0, while present values pass through unchanged;
description and thumbnail stay absent rather than defaulted; the thumbnail
prefers the full thumbnail link over the small-thumbnail link when both
exist; and `totalItems` defaults to the count of mapped items exactly when
absent. -/
theorem mapResponse_field_defaults :
    ∀ (d : GoogleBooksResponse) (v : GoogleBooksVolume) (vi : GoogleBooksVolumeInfo),
      (mapResponse d).items = (d.items.getD []).map mapVolume ∧
      (d.totalItems = none →
        (mapResponse d).totalItems = ((mapResponse d).items.length : Int)) ∧
      (∀ n, d.totalItems = some n → (mapResponse d).totalItems = n) ∧
      (v.volumeInfo = some vi →
        (mapVolume v).id = v.id ∧
        (vi.title = none → (mapVolume v).title = "Unknown Title") ∧
        (∀ t, vi.title = some t → (mapVolume v).title = t) ∧
        (vi.authors = none → (mapVolume v).authors = ["Unknown Author"]) ∧
        (∀ a, vi.authors = some a → (mapVolume v).authors = a) ∧
        (vi.publisher = none → (mapVolume v).publisher = "Unknown Publisher") ∧
        (∀ p, vi.publisher = some p → (mapVolume v).publisher = p) ∧
        (vi.publishedDate = none → (mapVolume v).publishedDate = "Unknown") ∧
        (∀ p, vi.publishedDate = some p → (mapVolume v).publishedDate = p) ∧
        (vi.pageCount = none → (mapVolume v).pageCount = 0) ∧
        (∀ n, vi.pageCount = some n → (mapVolume v).pageCount = n) ∧
        (mapVolume v).description = vi.description ∧
        (vi.imageLinks = none → (mapVolume v).thumbnail = none) ∧
        (∀ links t, vi.imageLinks = some links → links.thumbnail = some t →
          (mapVolume v).thumbnail = some t) ∧
        (∀ links, vi.imageLinks = some links → links.thumbnail = none →
          (mapVolume v).thumbnail = links.smallThumbnail)) := by
  intro d v vi
  refine ⟨rfl, ?_, ?_, ?_⟩
  · intro h
    simp [mapResponse, h]
  · intro n h
    simp [mapResponse, h]
  · intro hv
    refine ⟨rfl, ?_, ?_, ?_, ?_, ?_, ?_, ?_, ?_, ?_, ?_, ?_, ?_, ?_, ?_⟩
    · intro h; simp [mapVolume, hv, h]
    · intro t h; simp [mapVolume, hv, h]
    · intro h; simp [mapVolume, hv, h]
    · intro a h; simp [mapVolume, hv, h]
    · intro h; simp [mapVolume, hv, h]
    · intro p h; simp [mapVolume, hv, h]
    · intro h; simp [mapVolume, hv, h]
    · intro p h; simp [mapVolume, hv, h]
    · intro h; simp [mapVolume, hv, h]
    · intro n h; simp [mapVolume, hv, h]
    · simp [mapVolume, hv]
    · intro h; simp [mapVolume, hv, h]
    · intro links t hl ht; simp [mapVolume, hv, hl, ht]
    · intro links hl ht
      simp [mapVolume, hv, hl, ht, Option.orElse]

/-- C6 (witness): the theorem applied to a volume with every metadata field
absent and a payload without `totalItems`. -/
theorem mapResponse_field_defaults_witness :
    (mapVolume bareVolume).title = "Unknown Title" ∧
      (mapVolume bareVolume).authors = ["Unknown Author"] ∧
      (mapVolume bareVolume).publisher = "Unknown Publisher" ∧
      (mapVolume bareVolume).publishedDate = "Unknown" ∧
      (mapVolume bareVolume).pageCount = 0 ∧
      (mapVolume bareVolume).description = none ∧
      (mapVolume bareVolume).thumbnail = none ∧
      (mapResponse bareResponse).totalItems = ((mapResponse bareResponse).items.length : Int) := by
  have h := mapResponse_field_defaults bareResponse bareVolume emptyVolumeInfo
  obtain ⟨-, htot, -, hitem⟩ := h
  obtain ⟨-, ht, -, ha, -, hp, -, hd, -, hc, -, hdesc, hth, -, -⟩ := hitem rfl
  exact ⟨ht rfl, ha rfl, hp rfl, hd rfl, hc rfl, hdesc, hth rfl, htot rfl⟩

/-- C7: the TLS trust builder returns a transport policy exactly when a CA
bundle was loaded or verification was explicitly disabled (the
reject-unauthorized flag normalizing to `false`); and a failing CA-file read
(with no inline certificate) is caught and yields "no CA bundle" instead of
propagating — construction always completes. -/
theorem buildHttpsAgent_policy_condition :
    ∀ (readFile : String → Option String) (cfg : ConfigValue)
      (caFile inlineCa : Option String),
      ((buildHttpsAgent readFile cfg caFile inlineCa).isSome = true ↔
        ((loadCertificateBundle readFile caFile inlineCa).isSome = true ∨
          normalizeBoolean cfg = some false)) ∧
      (strTrim (inlineCa.getD "") = "" →
        readFile (strTrim (caFile.getD "")) = none →
        loadCertificateBundle readFile caFile inlineCa = none) := by
  intro readFile cfg caFile inlineCa
  constructor
  · simp only [buildHttpsAgent]
    split
    · rename_i hcond
      simp only [Option.isSome_some, true_iff]
      have hcond' : (loadCertificateBundle readFile caFile inlineCa).isSome = true ∨
          normalizeBoolean cfg = some false := by
        simpa [Bool.or_eq_true, beq_iff_eq] using hcond
      exact hcond'
    · rename_i hcond
      simp only [Option.isSome_none, Bool.false_eq_true, false_iff]
      intro hor
      apply hcond
      simp only [Bool.or_eq_true, beq_iff_eq]
      exact hor
  · intro hin hread
    unfold loadCertificateBundle
    rw [if_neg (by simp [hin])]
    by_cases hcf : strTrim (caFile.getD "") ≠ ""
    · rw [if_pos hcf]
      simp [hread]
    · rw [if_neg hcf]

/-- C7 (witness): the theorem applied to a configuration whose CA file read
fails while verification is disabled. -/
theorem buildHttpsAgent_policy_condition_witness :
    ((buildHttpsAgent (fun _ => none) (ConfigValue.str "false") (some "certs/ca.pem")
        none).isSome = true ↔
      ((loadCertificateBundle (fun _ => none) (some "certs/ca.pem") none).isSome = true ∨
        normalizeBoolean (ConfigValue.str "false") = some false)) ∧
      loadCertificateBundle (fun _ => none) (some "certs/ca.pem") none = none := by
  have h := buildHttpsAgent_policy_condition (fun _ => none) (ConfigValue.str "false")
    (some "certs/ca.pem") none
  exact ⟨h.1, h.2 rfl rfl⟩

/-- C8: a call that raises a classified error leaves the cache exactly as it
was — no entry added or refreshed — so a later identical call (at any clock
not earlier than the failed one) still invokes the upstream client. -/
theorem classified_error_cache_unchanged :
    ∀ (st : SearchState) (up up2 : Upstream) (q ob : String) (si mr t2 : Int)
      (e : ErrorKind),
      ((searchBooks st up q ob si mr).result = Except.error e →
        (searchBooks st up q ob si mr).cache = st.cache) ∧
      ((searchBooks st up q ob si mr).result = Except.error e → st.now ≤ t2 →
        1 ≤ (searchBooks { cache := (searchBooks st up q ob si mr).cache, now := t2 }
              up2 q ob si mr).upstreamCalls) := by
  intro st up up2 q ob si mr t2 e
  constructor
  · intro h
    exact (searchBooks_err_inv st up q ob si mr e h).2
  · intro h hle
    obtain ⟨hmiss, hcache⟩ := searchBooks_err_inv st up q ob si mr e h
    have hnone := cacheLookup_none_later st.cache
      (buildCacheKey q ob si (min mr maxResultsCap)) st.now t2 hmiss hle
    rw [hcache]
    rw [searchBooks_miss_calls { cache := st.cache, now := t2 } up2 q ob si mr hnone]
    exact fetchWithRetries_calls_pos up2

/-- C8 (witness): the theorem applied to a 404-failing upstream double and a
later retry of the same request. -/
theorem classified_error_cache_unchanged_witness :
    (searchBooks { cache := [], now := 5 } upstream404 "x" "relevance" 0 10).cache = [] ∧
      1 ≤ (searchBooks
            { cache := (searchBooks { cache := [], now := 5 } upstream404 "x" "relevance" 0 10).cache,
              now := 99 }
            upstreamOk "x" "relevance" 0 10).upstreamCalls := by
  have h := classified_error_cache_unchanged { cache := [], now := 5 } upstream404 upstreamOk
    "x" "relevance" 0 10 99 (ErrorKind.badRequest 404)
  exact ⟨h.1 (by decide), h.2 (by decide) (by decide)⟩

/-- C9: the cache key uses the raw query string — no trimming, no case
folding — so two calls whose query strings differ in any character (case or
surrounding whitespace included) compute different cache keys, and starting
from an empty cache each of the two calls performs its own upstream fetch. -/
theorem cache_key_raw_query_distinct :
    ∀ (q1 q2 ob : String) (si mr t1 t2 : Int) (up up2 : Upstream),
      q1 ≠ q2 →
      buildCacheKey q1 ob si mr ≠ buildCacheKey q2 ob si mr ∧
      1 ≤ (searchBooks { cache := [], now := t1 } up q1 ob si mr).upstreamCalls ∧
      1 ≤ (searchBooks
            { cache := (searchBooks { cache := [], now := t1 } up q1 ob si mr).cache,
              now := t2 }
            up2 q2 ob si mr).upstreamCalls := by
  intro q1 q2 ob si mr t1 t2 up up2 hne
  refine ⟨fun h => hne (buildCacheKey_query_inj q1 q2 ob si mr h), ?_, ?_⟩
  · rw [searchBooks_miss_calls { cache := [], now := t1 } up q1 ob si mr rfl]
    exact fetchWithRetries_calls_pos up
  · have hkeys : buildCacheKey q2 ob si (min mr maxResultsCap) ≠
        buildCacheKey q1 ob si (min mr maxResultsCap) :=
      fun h => hne (buildCacheKey_query_inj q2 q1 ob si _ h).symm
    rcases hfo : fetchWithRetries up with ⟨r, k, ds⟩
    cases r with
    | ok resp =>
        rw [searchBooks_miss_ok { cache := [], now := t1 } up q1 ob si mr resp k ds rfl hfo]
        dsimp only
        have hnone : cacheLookup
            (cacheSet [] (buildCacheKey q1 ob si (min mr maxResultsCap))
              { timestamp := t1, data := mapResponse resp })
            (buildCacheKey q2 ob si (min mr maxResultsCap)) t2 = none := by
          unfold cacheLookup
          rw [cacheGet_set_other _ _ _ _ hkeys]
          rfl
        rw [searchBooks_miss_calls
          { cache := cacheSet [] (buildCacheKey q1 ob si (min mr maxResultsCap))
              { timestamp := t1, data := mapResponse resp }, now := t2 }
          up2 q2 ob si mr hnone]
        exact fetchWithRetries_calls_pos up2
    | error fe =>
        rw [searchBooks_miss_err { cache := [], now := t1 } up q1 ob si mr fe k ds rfl hfo]
        dsimp only
        rw [searchBooks_miss_calls { cache := [], now := t2 } up2 q2 ob si mr rfl]
        exact fetchWithRetries_calls_pos up2

/-- C9 (witness): the theorem applied to queries differing only in case. -/
theorem cache_key_raw_query_distinct_witness :
    buildCacheKey "a" "relevance" 0 10 ≠ buildCacheKey "A" "relevance" 0 10 ∧
      1 ≤ (searchBooks { cache := [], now := 0 } upstreamOk "a" "relevance" 0 10).upstreamCalls ∧
      1 ≤ (searchBooks
            { cache := (searchBooks { cache := [], now := 0 } upstreamOk "a" "relevance" 0 10).cache,
              now := 0 }
            upstreamOk "A" "relevance" 0 10).upstreamCalls :=
  cache_key_raw_query_distinct "a" "A" "relevance" 0 10 0 0 upstreamOk upstreamOk (by decide)

end Coverly
